import Mathlib

/-!
Shallow embedding of the Plumline (lgtm-paris) frontend query layer and its
collaborator-facing contracts: the result card's lowest-price policy, the
search API client, the home page's unit handling, the booking modal, and —
modelled from the specification where the backend sources are absent — the
hybrid merge rule and the external-fallback circuit breaker.
-/

namespace Plumline

/-- Inquiry status exposed per provider by the API: `none | sent | replied`. -/
inductive InquiryStatus where
  | noStatus
  | sent
  | replied
deriving DecidableEq

/-- Local UI state of the inquiry button inside `ResultCard`
(`"idle" | "sending" | "sent" | "error"` in `result-card.tsx`). -/
inductive InquiryLocalState where
  | idle
  | sending
  | sent
  | error
deriving DecidableEq

/-- One price observation as delivered to the frontend
(`observations` entries in the `/api/search` response). -/
structure Observation where
  service_type : String
  price : ℚ
  currency : String
  source_type : String
deriving DecidableEq

/-- A ranked provider result with its observations, as consumed by
`ResultCard` (`ProviderWithPrices` in `lib/types`). -/
structure ProviderWithPrices where
  id : String
  name : String
  category : String
  address : String
  description : Option String
  rating : Option ℚ
  review_count : Option ℕ
  distance_meters : ℚ
  observations : List Observation
  inquiry_status : InquiryStatus
deriving DecidableEq

/-- The price/currency pair returned by `getLowestPrice`. -/
structure PriceInfo where
  price : ℚ
  currency : String
deriving DecidableEq

/-- Ordering used by the JS comparator `(a, b) => a.price - b.price`. -/
def priceLE (a b : Observation) : Prop := a.price ≤ b.price

instance : DecidableRel priceLE := fun a b =>
  inferInstanceAs (Decidable (a.price ≤ b.price))

instance : IsTotal Observation priceLE := ⟨fun a b => le_total a.price b.price⟩

instance : IsTrans Observation priceLE := ⟨fun _ _ _ h1 h2 => le_trans h1 h2⟩

/-- Stable sort by ascending price: model of `[...xs].sort((a, b) => a.price - b.price)`
(JS `Array.prototype.sort` is stable, as is insertion sort). -/
def sortByPrice (l : List Observation) : List Observation :=
  List.insertionSort priceLE l

/-- `getLowestPrice` from `result-card.tsx` lines 19-28: return `null` when there are
no observations, keep only observations with `price > 0`, return `null` when none
remain, otherwise sort ascending by price and take the first entry. -/
def getLowestPrice (p : ProviderWithPrices) : Option PriceInfo :=
  if p.observations = [] then none
  else if p.observations.filter (fun o => decide (0 < o.price)) = [] then none
  else
    match sortByPrice (p.observations.filter (fun o => decide (0 < o.price))) with
    | [] => none
    | r :: _ => some ⟨r.price, r.currency⟩

/-- The second `getLowestPrice` implementation, `result-card.tsx` lines 184-191:
sorts all observations without filtering out non-positive prices. -/
def getLowestPriceAllObs (p : ProviderWithPrices) : Option PriceInfo :=
  if p.observations = [] then none
  else
    match sortByPrice p.observations with
    | [] => none
    | r :: _ => some ⟨r.price, r.currency⟩

/-- What the card's right-hand slot shows (`result-card.tsx` lines 92-108). -/
inductive Slot where
  | price (pr : ℚ) (c : String)
  | replyReceived
  | inquirySent
  | empty
deriving DecidableEq

/-- The card's action button (`result-card.tsx` lines 132-157). -/
inductive CardButton where
  | inquire
  | book
deriving DecidableEq

/-- Right-hand slot of `ResultCard`: the lowest price when `hasPrice`, else
"Reply received" when `inquiry_status === "replied"`, else "Inquiry sent" when
the local state or the provider status says sent, else nothing. -/
def priceSlot (p : ProviderWithPrices) (st : InquiryLocalState) : Slot :=
  match getLowestPrice p with
  | some r => Slot.price r.price r.currency
  | none =>
    if p.inquiry_status = InquiryStatus.replied then Slot.replyReceived
    else if st = InquiryLocalState.sent ∨ p.inquiry_status = InquiryStatus.sent then
      Slot.inquirySent
    else Slot.empty

/-- Action button of `ResultCard`: the "Inquire price" button when
`!hasPrice && !alreadyReplied && inquiryState !== "sent" && provider.inquiry_status !== "sent"`,
otherwise "Book now". -/
def cardAction (p : ProviderWithPrices) (st : InquiryLocalState) : CardButton :=
  if getLowestPrice p = none ∧ p.inquiry_status ≠ InquiryStatus.replied ∧
      st ≠ InquiryLocalState.sent ∧ p.inquiry_status ≠ InquiryStatus.sent then
    CardButton.inquire
  else CardButton.book

/-- The card currently shows a price in its right-hand slot. -/
def showsLowestPrice (p : ProviderWithPrices) (st : InquiryLocalState) : Bool :=
  match priceSlot p st with
  | Slot.price _ _ => true
  | _ => false

/-- The card currently shows "Reply received". -/
def showsReplyReceived (p : ProviderWithPrices) (st : InquiryLocalState) : Bool :=
  decide (priceSlot p st = Slot.replyReceived)

/-- The card currently shows "Inquiry sent". -/
def showsInquirySent (p : ProviderWithPrices) (st : InquiryLocalState) : Bool :=
  decide (priceSlot p st = Slot.inquirySent)

/-- The card currently offers the "Inquire price" action. -/
def showsInquireAction (p : ProviderWithPrices) (st : InquiryLocalState) : Bool :=
  decide (cardAction p st = CardButton.inquire)

/-- A sample provider used to instantiate hypotheses at concrete inputs. -/
def sampleProvider : ProviderWithPrices :=
  ⟨"p1", "QuickFix Garage", "mechanic", "14 Old Kent Rd", none, none, none, 1200,
    [⟨"oil_change", 45, "GBP", "manual"⟩, ⟨"oil_change", 60, "GBP", "scrape"⟩],
    InquiryStatus.noStatus⟩

/-- Query parameters accepted by `searchProviders` (`SearchParams` in `lib/types`). -/
structure SearchParams where
  q : String
  lat : ℚ
  lng : ℚ
  radius_meters : ℚ
deriving DecidableEq

/-- The decoded body of a successful `/api/search` response. -/
structure SearchResponse where
  query : String
  results : List ProviderWithPrices
  discovery_triggered : Bool
deriving DecidableEq

/-- An outgoing HTTP request as assembled by the API client. -/
structure HttpRequest where
  method : String
  path : String
  query : List (String × String)
deriving DecidableEq

/-- The transport-level reply observed by `fetch`. -/
structure FetchResponse where
  ok : Bool
  status : ℕ
  statusText : String
  body : SearchResponse
deriving DecidableEq

/-- `searchProviders` from `lib/api.ts` lines 5-19: build the `/api/search` URL with
the four query parameters `q`, `lat`, `lng`, `radius_meters` (numbers via `String(...)`),
issue a GET, throw `Search failed: <status> <statusText>` on a non-ok response, and
return the decoded JSON body otherwise. The function is modelled as the pair of the
request it issues and the result it produces given the transport's reply. -/
def searchProviders (params : SearchParams) (res : FetchResponse) :
    HttpRequest × Except String SearchResponse :=
  (⟨"GET", "/api/search",
      [("q", params.q), ("lat", toString params.lat), ("lng", toString params.lng),
       ("radius_meters", toString params.radius_meters)]⟩,
   if res.ok then Except.ok res.body
   else Except.error ("Search failed: " ++ toString res.status ++ " " ++ res.statusText))

/-- `DISTANCE_MIN_KM` from `lib/constants.ts`. -/
def DISTANCE_MIN_KM : ℚ := 1 / 2

/-- `DISTANCE_MAX_KM` from `lib/constants.ts`. -/
def DISTANCE_MAX_KM : ℚ := 20

/-- `DISTANCE_DEFAULT_KM` from `lib/constants.ts`. -/
def DISTANCE_DEFAULT_KM : ℚ := 5

/-- `DISTANCE_STEP_KM` from `lib/constants.ts`. -/
def DISTANCE_STEP_KM : ℚ := 1 / 2

/-- JS `String.prototype.trim`: strip whitespace from both ends of the string. -/
def jsTrim (s : String) : String :=
  ⟨(((s.data.dropWhile Char.isWhitespace).reverse.dropWhile
      Char.isWhitespace).reverse)⟩

/-- `HomePage.handleSearch`: trim the query, bail out when it is empty, otherwise
navigate to `/results` with parameters `q`, `lat`, `lng` and `radius`, where
`radius = String(distance * 1000)` converts the slider's kilometers to meters. -/
def handleSearch (query : String) (lat lng : ℚ) (distanceKm : ℚ) :
    Option (List (String × String)) :=
  let searchQuery := jsTrim query
  if searchQuery = "" then none
  else
    some [("q", searchQuery), ("lat", toString lat), ("lng", toString lng),
          ("radius", toString (distanceKm * 1000))]

/-- UI status of `BookingModal` (`"idle" | "loading" | "success" | "error"`). -/
inductive BookingStatus where
  | idle
  | loading
  | success
  | error
deriving DecidableEq

/-- The 120 000 ms abort deadline set in `BookingModal.handleSubmit`. -/
def BOOKING_TIMEOUT_MS : ℕ := 120000

/-- What happens to the in-flight `/api/book` request: the server answers at
`arrivalMs` milliseconds after the request started (with `ok` true or false), or
the fetch rejects at `arrivalMs` with a network failure. -/
inductive BookFetchOutcome where
  | response (arrivalMs : ℕ) (ok : Bool)
  | networkError (arrivalMs : ℕ)
deriving DecidableEq

/-- `BookingModal.handleSubmit` (booking-modal lines 69-89): set status to loading,
arm an `AbortController` that fires after `BOOKING_TIMEOUT_MS`, await the fetch;
an ok response arriving before the abort yields `success`, while a non-ok response,
a network failure, or the abort itself is caught and yields `error`. The returned
value is the status the modal holds once the handler finishes. -/
def handleSubmit (o : BookFetchOutcome) : BookingStatus :=
  match o with
  | BookFetchOutcome.response t ok =>
    if t < BOOKING_TIMEOUT_MS ∧ ok = true then BookingStatus.success
    else BookingStatus.error
  | BookFetchOutcome.networkError _ => BookingStatus.error

/-- The close (X) button of `BookingModal` is rendered only while the agent is not
running: `{status !== "loading" && <button onClick={onClose} ...>}`. -/
def closeButtonRendered (s : BookingStatus) : Bool :=
  decide (s ≠ BookingStatus.loading)

/-- The submit button of `BookingModal` carries `disabled={status === "loading"}`. -/
def submitButtonDisabled (s : BookingStatus) : Bool :=
  decide (s = BookingStatus.loading)

/-- Modelled from the spec: the Hybrid Query Engine's vector-score threshold 0.75
(the backend search service is not among the provided sources). -/
def VECTOR_SCORE_THRESHOLD : ℚ := 3 / 4

/-- Modelled from the spec: the Hybrid Query Engine's text-score threshold 0.10. -/
def TEXT_SCORE_THRESHOLD : ℚ := 1 / 10

/-- Modelled from the spec: the merge rule of the Hybrid Query Engine — a service
type qualifies if `score_vector ≥ 0.75` or `score_text ≥ 0.10` (the backend search
service implementing the merge is not among the provided sources). -/
def hybridQualifies (score_vector score_text : ℚ) : Bool :=
  decide (VECTOR_SCORE_THRESHOLD ≤ score_vector) ||
    decide (TEXT_SCORE_THRESHOLD ≤ score_text)

/-- Source tag kept by the merge: `match_source ∈ \x7btext, vector, both\x7d`. -/
inductive MatchSource where
  | text
  | vector
  | both
deriving DecidableEq

/-- Modelled from the spec: a qualifying service type matched by both matchers is
tagged `both`, otherwise by the matcher whose score passed its threshold; a
non-qualifying type is dropped (the backend merge code is not among the sources). -/
def matchSource (score_vector score_text : ℚ) : Option MatchSource :=
  if VECTOR_SCORE_THRESHOLD ≤ score_vector ∧ TEXT_SCORE_THRESHOLD ≤ score_text then
    some MatchSource.both
  else if VECTOR_SCORE_THRESHOLD ≤ score_vector then some MatchSource.vector
  else if TEXT_SCORE_THRESHOLD ≤ score_text then some MatchSource.text
  else none

/-- Modelled from the spec: per-dependency state of the Circuit Breaker, a single
`open_until` timestamp in seconds (the backend fallback tier is not among the
provided sources). -/
structure CircuitBreakerState where
  open_until : ℕ
deriving DecidableEq

/-- Modelled from the spec: the 120 s cooldown of the external-search circuit breaker. -/
def CIRCUIT_COOLDOWN_S : ℕ := 120

/-- Result of the external search network call, were it attempted. -/
inductive FallbackNet where
  | success (answer : String)
  | timeout
deriving DecidableEq

/-- Outcome of one fallback-tier invocation. -/
inductive FallbackOutcome where
  | found (answer : String)
  | circuitOpen
  | failed
deriving DecidableEq

/-- Modelled from the spec: the external fallback tier guarded by the Circuit
Breaker (the backend code is not among the provided sources). The tier checks the
breaker first: if `open_until` is in the future it signals `CircuitOpen` without a
network call; otherwise it attempts the call — on timeout it sets
`open_until = now + 120 s` and propagates failure, on success it leaves the breaker
unchanged. The third component records whether a network call was made. -/
def fallbackCall (st : CircuitBreakerState) (now : ℕ) (net : FallbackNet) :
    FallbackOutcome × CircuitBreakerState × Bool :=
  if now < st.open_until then (FallbackOutcome.circuitOpen, st, false)
  else
    match net with
    | FallbackNet.timeout => (FallbackOutcome.failed, ⟨now + CIRCUIT_COOLDOWN_S⟩, true)
    | FallbackNet.success a => (FallbackOutcome.found a, st, true)

end Plumline

namespace Plumline

theorem sortByPrice_perm (l : List Observation) : List.Perm (sortByPrice l) l :=
  List.perm_insertionSort priceLE l

theorem sortByPrice_head_min {l : List Observation} {r : Observation}
    {rest : List Observation} (h : sortByPrice l = r :: rest) :
    r ∈ l ∧ ∀ o ∈ l, r.price ≤ o.price := by
  have hperm : List.Perm (sortByPrice l) l := sortByPrice_perm l
  have hmem : r ∈ l := hperm.mem_iff.mp (h ▸ List.mem_cons_self r rest)
  refine ⟨hmem, fun o ho => ?_⟩
  have ho2 : o ∈ sortByPrice l := hperm.mem_iff.mpr ho
  rw [h] at ho2
  rcases List.mem_cons.mp ho2 with heq | ho3
  · rw [heq]
  · have hs : List.Sorted priceLE (sortByPrice l) :=
      List.sorted_insertionSort priceLE l
    rw [h] at hs
    exact List.rel_of_sorted_cons hs o ho3

theorem getLowestPrice_of_none (p : ProviderWithPrices)
    (h : ∀ o ∈ p.observations, ¬ 0 < o.price) : getLowestPrice p = none := by
  have hf : p.observations.filter (fun o => decide (0 < o.price)) = [] := by
    rw [List.filter_eq_nil_iff]
    intro a ha
    simpa using h a ha
  unfold getLowestPrice
  rw [hf]
  simp

theorem getLowestPrice_of_pos (p : ProviderWithPrices)
    (h : ∃ o ∈ p.observations, 0 < o.price) :
    ∃ r : PriceInfo, getLowestPrice p = some r ∧
      (∃ o ∈ p.observations, 0 < o.price ∧ o.price = r.price ∧ o.currency = r.currency) ∧
      (∀ o ∈ p.observations, 0 < o.price → r.price ≤ o.price) := by
  obtain ⟨o, ho, hpos⟩ := h
  have hne : p.observations ≠ [] := List.ne_nil_of_mem ho
  have homem : o ∈ p.observations.filter (fun o => decide (0 < o.price)) :=
    List.mem_filter.2 ⟨ho, by simpa using hpos⟩
  have hwne : p.observations.filter (fun o => decide (0 < o.price)) ≠ [] :=
    List.ne_nil_of_mem homem
  cases hsort : sortByPrice (p.observations.filter (fun o => decide (0 < o.price))) with
  | nil =>
    exact absurd (((hsort ▸ sortByPrice_perm _).symm).eq_nil) hwne
  | cons r rest =>
    obtain ⟨hrmem, hrmin⟩ := sortByPrice_head_min hsort
    have hrobs : r ∈ p.observations := (List.mem_filter.1 hrmem).1
    have hrpos : 0 < r.price := by simpa using (List.mem_filter.1 hrmem).2
    refine ⟨⟨r.price, r.currency⟩, ?_, ⟨r, hrobs, hrpos, rfl, rfl⟩, ?_⟩
    · unfold getLowestPrice
      rw [if_neg hne, if_neg hwne, hsort]
    · intro x hx hxpos
      exact hrmin x (List.mem_filter.2 ⟨hx, by simpa using hxpos⟩)

theorem getLowestPrice_isSome_iff (p : ProviderWithPrices) :
    (getLowestPrice p).isSome = true ↔ ∃ o ∈ p.observations, 0 < o.price := by
  constructor
  · intro h
    by_contra hc
    push_neg at hc
    rw [getLowestPrice_of_none p (fun o ho => not_lt.2 (hc o ho))] at h
    simp at h
  · intro h
    obtain ⟨r, hr, -, -⟩ := getLowestPrice_of_pos p h
    rw [hr]
    rfl

/-- Claim C9: the two implementations of `getLowestPrice` — the one filtering
observations to `price > 0` before sorting and the one sorting all observations —
return equal results for every provider all of whose observations have positive
price. -/
theorem getLowestPrice_impls_agree (p : ProviderWithPrices)
    (h : ∀ o ∈ p.observations, 0 < o.price) :
    getLowestPrice p = getLowestPriceAllObs p := by
  have hf : p.observations.filter (fun o => decide (0 < o.price)) = p.observations :=
    List.filter_eq_self.2 (fun a ha => by simpa using h a ha)
  unfold getLowestPrice getLowestPriceAllObs
  rw [hf]
  by_cases hobs : p.observations = []
  · simp [hobs]
  · simp [hobs]

/-- Witness for C9 at a concrete provider whose observations are all positive. -/
theorem getLowestPrice_impls_agree_witness :
    (∀ o ∈ sampleProvider.observations, 0 < o.price) ∧
      getLowestPrice sampleProvider = getLowestPriceAllObs sampleProvider :=
  ⟨by decide, getLowestPrice_impls_agree sampleProvider (by decide)⟩

/-- Claim C1: for every provider group rendered by the query layer, if some
observation has positive price then the card's slot shows the minimum positive
price together with that observation's currency, and if no observation has
positive price then no price is shown — the current-price policy is the lowest
observation per provider. -/
theorem resultCard_current_price_policy (p : ProviderWithPrices)
    (st : InquiryLocalState) :
    ((∃ o ∈ p.observations, 0 < o.price) →
      ∃ pr c, priceSlot p st = Slot.price pr c ∧
        (∃ o ∈ p.observations, 0 < o.price ∧ o.price = pr ∧ o.currency = c) ∧
        (∀ o ∈ p.observations, 0 < o.price → pr ≤ o.price)) ∧
    ((∀ o ∈ p.observations, ¬ 0 < o.price) →
      ∀ pr c, priceSlot p st ≠ Slot.price pr c) := by
  constructor
  · intro h
    obtain ⟨r, hr, hsrc, hmin⟩ := getLowestPrice_of_pos p h
    exact ⟨r.price, r.currency, by simp [priceSlot, hr], hsrc, hmin⟩
  · intro h pr c
    rw [priceSlot, getLowestPrice_of_none p h]
    split_ifs <;> simp

/-- Witness for C1 at a concrete provider carrying positive-price observations. -/
theorem resultCard_current_price_policy_witness :
    (∃ o ∈ sampleProvider.observations, 0 < o.price) ∧
      ∃ pr c, priceSlot sampleProvider InquiryLocalState.idle = Slot.price pr c ∧
        (∃ o ∈ sampleProvider.observations,
          0 < o.price ∧ o.price = pr ∧ o.currency = c) ∧
        (∀ o ∈ sampleProvider.observations, 0 < o.price → pr ≤ o.price) :=
  ⟨by decide,
    (resultCard_current_price_policy sampleProvider InquiryLocalState.idle).1 (by decide)⟩

/-- Claim C8: every rendered provider card shows exactly one of the four displays —
the lowest price, "Reply received", "Inquiry sent", or the "Inquire price"
action — and which one is determined by the price data, the provider's inquiry
status, and whether an inquiry was just sent from this card. -/
theorem resultCard_exactly_one_display (p : ProviderWithPrices)
    (st : InquiryLocalState) :
    (showsLowestPrice p st).toNat + (showsReplyReceived p st).toNat +
        (showsInquirySent p st).toNat + (showsInquireAction p st).toNat = 1 ∧
    (showsLowestPrice p st = true ↔ ∃ o ∈ p.observations, 0 < o.price) ∧
    (showsReplyReceived p st = true ↔
      (¬ ∃ o ∈ p.observations, 0 < o.price) ∧
        p.inquiry_status = InquiryStatus.replied) ∧
    (showsInquirySent p st = true ↔
      (¬ ∃ o ∈ p.observations, 0 < o.price) ∧
        p.inquiry_status ≠ InquiryStatus.replied ∧
        (st = InquiryLocalState.sent ∨ p.inquiry_status = InquiryStatus.sent)) ∧
    (showsInquireAction p st = true ↔
      (¬ ∃ o ∈ p.observations, 0 < o.price) ∧
        p.inquiry_status ≠ InquiryStatus.replied ∧
        st ≠ InquiryLocalState.sent ∧ p.inquiry_status ≠ InquiryStatus.sent) := by
  have hiff := getLowestPrice_isSome_iff p
  cases hlp : getLowestPrice p with
  | some r =>
    have hex : ∃ o ∈ p.observations, 0 < o.price := by
      rw [← hiff, hlp]
      rfl
    cases h1 : p.inquiry_status <;> cases h2 : st <;>
      simp [showsLowestPrice, showsReplyReceived, showsInquirySent,
        showsInquireAction, priceSlot, cardAction, hlp, h1, h2, hex]
  | none =>
    have hex : ¬ ∃ o ∈ p.observations, 0 < o.price := by
      rw [← hiff, hlp]
      simp
    cases h1 : p.inquiry_status <;> cases h2 : st <;>
      simp [showsLowestPrice, showsReplyReceived, showsInquirySent,
        showsInquireAction, priceSlot, cardAction, hlp, h1, h2, hex]

/-- Claim C4: for every `SearchParams` value, `searchProviders` issues a GET to
`/api/search` carrying exactly the four query parameters `q`, `lat`, `lng` and
`radius_meters`, each set to the string form of the corresponding field, and on a
successful response returns the decoded `SearchResponse` with its ranked results
and `discovery_triggered` boolean. -/
theorem searchProviders_request_shape (params : SearchParams) (res : FetchResponse) :
    (searchProviders params res).1.method = "GET" ∧
    (searchProviders params res).1.path = "/api/search" ∧
    (searchProviders params res).1.query.map Prod.fst =
      ["q", "lat", "lng", "radius_meters"] ∧
    (searchProviders params res).1.query.lookup "q" = some params.q ∧
    (searchProviders params res).1.query.lookup "lat" = some (toString params.lat) ∧
    (searchProviders params res).1.query.lookup "lng" = some (toString params.lng) ∧
    (searchProviders params res).1.query.lookup "radius_meters" =
      some (toString params.radius_meters) ∧
    (res.ok = true →
      (searchProviders params res).2 = Except.ok res.body ∧
      ∃ body, (searchProviders params res).2 = Except.ok body ∧
        body.results = res.body.results ∧
        body.discovery_triggered = res.body.discovery_triggered) := by
  refine ⟨rfl, rfl, rfl, rfl, rfl, rfl, rfl, fun hok => ?_⟩
  constructor
  · simp [searchProviders, hok]
  · exact ⟨res.body, by simp [searchProviders, hok], rfl, rfl⟩

/-- Witness for C4 at concrete parameters and an ok response. -/
theorem searchProviders_request_shape_witness :
    (⟨true, 200, "OK", ⟨"oil change", [], false⟩⟩ : FetchResponse).ok = true ∧
    (searchProviders ⟨"oil change", 515, -1, 5000⟩
        ⟨true, 200, "OK", ⟨"oil change", [], false⟩⟩).1.method = "GET" ∧
    (searchProviders ⟨"oil change", 515, -1, 5000⟩
        ⟨true, 200, "OK", ⟨"oil change", [], false⟩⟩).2 =
      Except.ok ⟨"oil change", [], false⟩ :=
  ⟨rfl,
    (searchProviders_request_shape ⟨"oil change", 515, -1, 5000⟩
        ⟨true, 200, "OK", ⟨"oil change", [], false⟩⟩).1,
    ((searchProviders_request_shape ⟨"oil change", 515, -1, 5000⟩
        ⟨true, 200, "OK", ⟨"oil change", [], false⟩⟩).2.2.2.2.2.2.2 rfl).1⟩

/-- Claim C6: `searchProviders` throws an error naming the HTTP status if and only
if the `/api/search` response is not ok; on an ok response it returns the parsed
body and raises nothing. -/
theorem searchProviders_error_surface (params : SearchParams) (res : FetchResponse) :
    ((∃ e, (searchProviders params res).2 = Except.error e) ↔ res.ok = false) ∧
    (res.ok = false →
      (searchProviders params res).2 =
        Except.error ("Search failed: " ++ toString res.status ++ " " ++
          res.statusText)) ∧
    (res.ok = true → (searchProviders params res).2 = Except.ok res.body) := by
  cases hok : res.ok <;> simp [searchProviders, hok]

/-- Witness for C6 at a concrete failing response. -/
theorem searchProviders_error_surface_witness :
    (⟨false, 500, "Internal Server Error", ⟨"q", [], false⟩⟩ : FetchResponse).ok
        = false ∧
    (searchProviders ⟨"q", 0, 0, 5000⟩
        ⟨false, 500, "Internal Server Error", ⟨"q", [], false⟩⟩).2 =
      Except.error ("Search failed: " ++ toString (500 : ℕ) ++ " " ++
        "Internal Server Error") :=
  ⟨rfl,
    (searchProviders_error_surface ⟨"q", 0, 0, 5000⟩
        ⟨false, 500, "Internal Server Error", ⟨"q", [], false⟩⟩).2.1 rfl⟩

/-- Claim C5: for every slider distance `d` in kilometers with
`DISTANCE_MIN_KM ≤ d ≤ DISTANCE_MAX_KM` and every non-empty trimmed query,
`HomePage.handleSearch` navigates with `radius = d * 1000`, so the radius reaching
the search layer is in meters and the only unit conversion is this single
km-to-meters multiplication. -/
theorem homePage_radius_km_to_meters (q : String) (lat lng d : ℚ)
    (_hmin : DISTANCE_MIN_KM ≤ d) (_hmax : d ≤ DISTANCE_MAX_KM)
    (hq : jsTrim q ≠ "") :
    handleSearch q lat lng d =
      some [("q", jsTrim q), ("lat", toString lat), ("lng", toString lng),
            ("radius", toString (d * 1000))] := by
  simp [handleSearch, hq]

/-- Witness for C5 at the default slider distance and a concrete query. -/
theorem homePage_radius_km_to_meters_witness :
    DISTANCE_MIN_KM ≤ 5 ∧ (5 : ℚ) ≤ DISTANCE_MAX_KM ∧ jsTrim "oil change" ≠ "" ∧
    handleSearch "oil change" (515 / 10) (-1) 5 =
      some [("q", jsTrim "oil change"), ("lat", toString ((515 : ℚ) / 10)),
            ("lng", toString (-1 : ℚ)), ("radius", toString ((5 : ℚ) * 1000))] :=
  ⟨by norm_num [DISTANCE_MIN_KM], by norm_num [DISTANCE_MAX_KM], by decide,
    homePage_radius_km_to_meters "oil change" (515 / 10) (-1) 5
      (by norm_num [DISTANCE_MIN_KM]) (by norm_num [DISTANCE_MAX_KM]) (by decide)⟩

/-- Claim C7: `BookingModal.handleSubmit` aborts the in-flight `/api/book` request
120 000 ms after it starts; after the handler completes, the status is `success`
exactly when an ok response arrived before that deadline and `error` in every other
case — the modal never remains `loading` once the handler returns. -/
theorem bookingModal_submit_status (o : BookFetchOutcome) :
    (handleSubmit o = BookingStatus.success ↔
      ∃ t, o = BookFetchOutcome.response t true ∧ t < BOOKING_TIMEOUT_MS) ∧
    handleSubmit o ≠ BookingStatus.loading := by
  cases o with
  | response t ok =>
    constructor
    · simp only [handleSubmit]
      split_ifs with h
      · exact ⟨fun _ => ⟨t, by rw [h.2], h.1⟩, fun _ => rfl⟩
      · constructor
        · intro hs
          exact absurd hs (by simp)
        · rintro ⟨t2, het, hlt⟩
          injection het with h1 h2
          exact absurd ⟨by rw [h1]; exact hlt, h2⟩ h
    · simp only [handleSubmit]
      split_ifs <;> simp
  | networkError t => simp [handleSubmit]

/-- Claim C10: whenever `BookingModal`'s status is `loading`, the close (X) button
is not rendered and the submit button is disabled, so no second booking request can
be started from the same modal while one is in flight. -/
theorem bookingModal_loading_locks_ui :
    closeButtonRendered BookingStatus.loading = false ∧
      submitButtonDisabled BookingStatus.loading = true := by
  decide

/-- Claim C2: in the Hybrid Query Engine merge, a service type with scores
`(score_vector, score_text)` qualifies if and only if `score_vector ≥ 0.75` or
`score_text ≥ 0.10`; in particular `(0.80, 0.00)` qualifies, `(0.50, 0.05)` does
not, and `(0.50, 0.15)` qualifies via text. -/
theorem hybridMerge_qualification (sv st : ℚ) :
    (hybridQualifies sv st = true ↔ (3 / 4 ≤ sv ∨ 1 / 10 ≤ st)) ∧
    (matchSource sv st).isSome = hybridQualifies sv st ∧
    hybridQualifies (4 / 5) 0 = true ∧
    hybridQualifies (1 / 2) (1 / 20) = false ∧
    hybridQualifies (1 / 2) (3 / 20) = true := by
  refine ⟨?_, ?_, by norm_num [hybridQualifies, VECTOR_SCORE_THRESHOLD,
      TEXT_SCORE_THRESHOLD], by norm_num [hybridQualifies, VECTOR_SCORE_THRESHOLD,
      TEXT_SCORE_THRESHOLD], by norm_num [hybridQualifies, VECTOR_SCORE_THRESHOLD,
      TEXT_SCORE_THRESHOLD]⟩
  · simp [hybridQualifies, VECTOR_SCORE_THRESHOLD, TEXT_SCORE_THRESHOLD]
  · by_cases hv : VECTOR_SCORE_THRESHOLD ≤ sv <;>
      by_cases ht : TEXT_SCORE_THRESHOLD ≤ st <;>
      simp [matchSource, hybridQualifies, hv, ht]

/-- Claim C3: after the external fallback tier records a timeout at time `T`
(starting from a breaker that was closed at `T`), every fallback call attempted
strictly before `T + 120 s` is rejected as `CircuitOpen` without a network call,
and a call attempted at or after `T + 120 s` is attempted normally. -/
theorem circuitBreaker_cooldown (st0 : CircuitBreakerState) (T t : ℕ)
    (net : FallbackNet) (h : st0.open_until ≤ T) :
    (fallbackCall st0 T FallbackNet.timeout).2.1.open_until =
      T + CIRCUIT_COOLDOWN_S ∧
    (t < T + CIRCUIT_COOLDOWN_S →
      fallbackCall (fallbackCall st0 T FallbackNet.timeout).2.1 t net =
        (FallbackOutcome.circuitOpen,
          (fallbackCall st0 T FallbackNet.timeout).2.1, false)) ∧
    (T + CIRCUIT_COOLDOWN_S ≤ t →
      (fallbackCall (fallbackCall st0 T FallbackNet.timeout).2.1 t net).2.2
        = true) := by
  have hclosed : ¬ T < st0.open_until := not_lt.2 h
  have hstep : (fallbackCall st0 T FallbackNet.timeout).2.1 =
      ⟨T + CIRCUIT_COOLDOWN_S⟩ := by
    simp [fallbackCall, hclosed]
  refine ⟨by rw [hstep], fun ht => ?_, fun ht => ?_⟩
  · rw [hstep]
    simp [fallbackCall, ht]
  · rw [hstep]
    have : ¬ t < T + CIRCUIT_COOLDOWN_S := not_lt.2 ht
    cases net <;> simp [fallbackCall, this]

/-- Witness for C3: a breaker closed at time 1000 records a timeout; a call at
1050 is rejected without a network call while the breaker stays open. -/
theorem circuitBreaker_cooldown_witness :
    (⟨0⟩ : CircuitBreakerState).open_until ≤ 1000 ∧
    ((fallbackCall ⟨0⟩ 1000 FallbackNet.timeout).2.1.open_until =
        1000 + CIRCUIT_COOLDOWN_S ∧
      (1050 < 1000 + CIRCUIT_COOLDOWN_S →
        fallbackCall (fallbackCall ⟨0⟩ 1000 FallbackNet.timeout).2.1 1050
            (FallbackNet.success "answer") =
          (FallbackOutcome.circuitOpen,
            (fallbackCall ⟨0⟩ 1000 FallbackNet.timeout).2.1, false)) ∧
      (1000 + CIRCUIT_COOLDOWN_S ≤ 1050 →
        (fallbackCall (fallbackCall ⟨0⟩ 1000 FallbackNet.timeout).2.1 1050
            (FallbackNet.success "answer")).2.2 = true)) :=
  ⟨by decide,
    circuitBreaker_cooldown ⟨0⟩ 1000 1050 (FallbackNet.success "answer") (by decide)⟩

end Plumline
